import Mathlib

/-!
Verification development for the subscription status-change notification
engine of the telegram-train-tracker repository.

The embedding translates the Python sources into executable Lean
definitions:

* `train_facade.py`: the `TrainTimes` value object, the scan of the
  timetable payload performed by `get_delay_from_api` (including the
  `TrainNotFoundError` outcome), the switch-station extraction, and the
  10-second TTL memoisation of `get_timetable`.
* `subscription_poller.py`: `check_subscription` (the per-subscription
  evaluator) and `poll_subscriptions` (the pass driver).

Conventions of the embedding:

* Wall-clock instants and timestamps handled by the poller are integers
  counting minutes (the poller works at minute granularity: departure
  times come from strftime with minute precision and all window
  comparisons are threshold tests on durations). ISO-formatted timestamp
  strings are represented by the instant they denote.
* The cache clock of the facade is an integer counting seconds, since
  the TTL is 10 seconds.
* Weekdays keep both conventions of the source: `pyWeekday` is the
  Python convention (0 = Monday) returned by datetime.now().weekday(),
  and the evaluator performs the same `(w + 1) % 7` shift to the
  0 = Sunday convention used by subscription rows.
* The JSON status blob becomes `StatusRecord`; a key that the Python
  dict may simply omit becomes an `Option` field whose `none` value
  models the absent key. An unparseable / NULL `last_status` column is
  the `none` case of `Option StatusRecord`.
* Exceptions become `Except` values. `TrainNotFoundError` and the
  generic wrapped exceptions of the facade are the two constructors of
  `ApiError`. The evaluator receives the outcome of its single facade
  call as an `Except ApiError TrainTimes` input.
* The two kinds of outbound messages are counted separately in `Notifs`
  (the audit log of the source distinguishes the rows it inserts by the
  notification_type column); the `notifications_sent` counter of the
  source is the sum `Notifs.total`.
-/

/-- Failure modes of `train_facade.get_delay_from_api`: the dedicated
`TrainNotFoundError`, or any other exception (network errors, malformed
payloads, missing train data), which the facade re-raises wrapped in a
generic `Exception`. -/
inductive ApiError where
  | trainNotFound
  | generic
deriving DecidableEq, Repr

/-- `train_facade.TrainTimes`. Departure and arrival timestamps are in
minutes. -/
structure TrainTimes where
  original_departure : Int
  original_arrival : Int
  delay_in_minutes : Int
  switch_stations : Option (List String)
deriving DecidableEq, Repr

/-- `TrainTimes.get_updated_departure`: parse the original departure and
add the delay. -/
def TrainTimes.get_updated_departure (t : TrainTimes) : Int :=
  t.original_departure + t.delay_in_minutes

/-- `TrainTimes.get_updated_arrival`: parse the original arrival and add
the delay. -/
def TrainTimes.get_updated_arrival (t : TrainTimes) : Int :=
  t.original_arrival + t.delay_in_minutes

/-- The persisted `last_status` JSON object. `none` in an `Option` field
models a key that is absent from the dict. -/
structure StatusRecord where
  status : String
  delay_minutes : Int
  updated_departure : Option Int
  updated_arrival : Option Int
  switch_stations : Option (List String)
  departure_reminder_sent : Option Bool
  last_notification_sent_at : Option Int
deriving DecidableEq, Repr

/-- The record `{status: unknown, delay_minutes: 0}` used both as the
parse-failure fallback for `last_status` and as the initial value of
`current_status` in `check_subscription`. -/
def unknown_status : StatusRecord :=
  { status := "unknown"
    delay_minutes := 0
    updated_departure := none
    updated_arrival := none
    switch_stations := none
    departure_reminder_sent := none
    last_notification_sent_at := none }

/-- The record `{status: not_found, delay_minutes: 0}` stored when the
facade raises `TrainNotFoundError`. -/
def not_found_status : StatusRecord :=
  { status := "not_found"
    delay_minutes := 0
    updated_departure := none
    updated_arrival := none
    switch_stations := none
    departure_reminder_sent := none
    last_notification_sent_at := none }

/-- The status label computed at line 153 of the poller:
`"delayed" if train_times.delay_in_minutes > 0 else "on-time"`. -/
def status_label (delay : Int) : String :=
  if 0 < delay then "delayed" else "on-time"

/-- The fresh `current_status` dict built from a successful facade call
(lines 152-158 of the poller). Note that it contains only the five keys
written there: the reminder flag and notification-timestamp keys are
absent. -/
def success_status (t : TrainTimes) : StatusRecord :=
  { status := status_label t.delay_in_minutes
    delay_minutes := t.delay_in_minutes
    updated_departure := some t.get_updated_departure
    updated_arrival := some t.get_updated_arrival
    switch_stations := t.switch_stations
    departure_reminder_sent := none
    last_notification_sent_at := none }

/-- The `status_changed` predicate of lines 161-164 of the poller. -/
def status_changed (last cur : StatusRecord) (threshold : Int) : Bool :=
  (last.status != cur.status) ||
    decide (threshold ≤ ((last.delay_minutes - cur.delay_minutes).natAbs : Int))

/-- Outbound messages of one evaluation, split by the notification_type
value the source writes to the audit log. -/
structure Notifs where
  status_change : Nat
  reminder : Nat
deriving DecidableEq, Repr

/-- The `notifications_sent` counter returned by `check_subscription`. -/
def Notifs.total (n : Notifs) : Nat :=
  n.status_change + n.reminder

/-- The inputs of one `check_subscription` call: the clock, the
subscription row fields, the joined user preferences, and the outcome
the facade call would produce during this evaluation. The pause flag is
a separate argument of `check_subscription`, mirroring the source
signature. -/
structure SubInput where
  todayMidnight : Int
  now : Int
  pyWeekday : Nat
  day_of_week : Nat
  depTimeOfDay : Int
  last_status_json : Option StatusRecord
  notification_before_departure : Int
  notification_delay_threshold : Int
  lookup : Except ApiError TrainTimes

/-- `current_day` after the shift to the 0 = Sunday convention
(lines 97-99 of the poller). -/
def SubInput.current_day (i : SubInput) : Nat :=
  (i.pyWeekday + 1) % 7

/-- `is_subscription_day` (line 102). -/
def SubInput.is_subscription_day (i : SubInput) : Bool :=
  i.current_day == i.day_of_week

/-- `is_day_before` (line 103). -/
def SubInput.is_day_before (i : SubInput) : Bool :=
  (i.current_day + 1) % 7 == i.day_of_week

/-- Today is the scheduled day or the day before (line 106). -/
def SubInput.day_eligible (i : SubInput) : Bool :=
  i.is_subscription_day || i.is_day_before

/-- `train_datetime` (lines 110-119): the departure time-of-day combined
with today when today is the scheduled day, else with tomorrow. -/
def SubInput.train_datetime (i : SubInput) : Int :=
  i.todayMidnight + (if i.is_subscription_day then 0 else 1440) + i.depTimeOfDay

/-- The skip condition of line 122: the scheduled day is today and the
train has already departed. -/
def SubInput.already_departed (i : SubInput) : Bool :=
  i.is_subscription_day && decide (i.train_datetime < i.now)

/-- `minutes_until_departure` (lines 126 and 208). -/
def SubInput.minutes_until_departure (i : SubInput) : Int :=
  i.train_datetime - i.now

/-- `hours_until_departure <= 1` (line 140), expressed in minutes. -/
def SubInput.in_check_window (i : SubInput) : Bool :=
  decide (i.minutes_until_departure ≤ 60)

/-- The reminder time window of lines 210 and 247:
`notification_before_departure <= minutes_until_departure <=
notification_before_departure + 5`. -/
def SubInput.in_reminder_window (i : SubInput) : Bool :=
  decide (i.notification_before_departure ≤ i.minutes_until_departure) &&
    decide (i.minutes_until_departure ≤ i.notification_before_departure + 5)

/-- `check_subscription` of subscription_poller.py, lines 70-266. The
returned `Option StatusRecord` is the persisted value: the early skip
branches return the raw `last_status_json` column unchanged (possibly
`none`), and the main path returns `json.dumps(current_status)`, always
a concrete record. -/
def check_subscription (i : SubInput) (notifications_paused : Bool) :
    Option StatusRecord × Notifs :=
  if !i.day_eligible then
    (i.last_status_json, ⟨0, 0⟩)
  else if i.already_departed then
    (i.last_status_json, ⟨0, 0⟩)
  else
    let last_status := i.last_status_json.getD unknown_status
    if i.in_check_window then
      match i.lookup with
      | .error .trainNotFound => (some not_found_status, ⟨0, 0⟩)
      | .error .generic => (some last_status, ⟨0, 0⟩)
      | .ok t =>
        let cur := success_status t
        let changed := status_changed last_status cur i.notification_delay_threshold
        let sc : Nat := if changed && !notifications_paused then 1 else 0
        let not_yet_sent := last_status.departure_reminder_sent.isNone
        if i.in_reminder_window && not_yet_sent && !notifications_paused then
          (some { cur with departure_reminder_sent := some true }, ⟨sc, 1⟩)
        else if i.in_reminder_window && not_yet_sent && notifications_paused then
          (some { cur with departure_reminder_sent := some true }, ⟨sc, 0⟩)
        else
          (some cur, ⟨sc, 0⟩)
    else
      (some unknown_status, ⟨0, 0⟩)

/-- One element of the `trains` list of a travel in the upstream
payload. `trainPosition` is `none` when the key is absent or null;
`some none` when the position object exists but has no
`calcDiffMinutes`; `some (some d)` when it carries the delay `d`. -/
structure Train where
  destinationStation : Int
  trainPosition : Option (Option Int)
deriving DecidableEq, Repr

/-- One element of `result.travels` of the upstream payload. -/
structure Travel where
  departureTime : Int
  arrivalTime : Int
  trains : List Train
deriving DecidableEq, Repr

/-- `train_facade.extract_switch_stations`: `None` for a single-leg
itinerary, else the (escaped) destination names of every leg but the
last. `nameOf` stands for the TRAIN_STATIONS id-to-name table used by
`station_id_to_name`, whose escape step replaces every dash. -/
def extract_switch_stations (nameOf : Int → String) (trains : List Train) :
    Option (List String) :=
  if trains.length = 1 then none
  else some (trains.dropLast.map (fun t => (nameOf t.destinationStation).replace "-" "\\-"))

/-- The scan loop of `train_facade.get_delay_from_api` (lines 167-206):
find the first travel whose scheduled departure equals the requested
timestamp; absent live-position data means delay 0; an empty trains list
is a generic failure; no matching travel at all is `TrainNotFoundError`. -/
def findMatchingTravel (nameOf : Int → String) (hour : Int) :
    List Travel → Except ApiError TrainTimes
  | [] => .error .trainNotFound
  | travel :: rest =>
    if travel.departureTime = hour then
      let sw := extract_switch_stations nameOf travel.trains
      match travel.trains with
      | [] => .error .generic
      | t0 :: _ =>
        match t0.trainPosition with
        | none => .ok ⟨travel.departureTime, travel.arrivalTime, 0, sw⟩
        | some none => .ok ⟨travel.departureTime, travel.arrivalTime, 0, sw⟩
        | some (some d) => .ok ⟨hour, travel.arrivalTime, d, sw⟩
    else findMatchingTravel nameOf hour rest

/-- `train_facade.get_delay_from_api`: a failed or malformed timetable
fetch is re-raised as a generic error, a valid payload is scanned with
the loop above. -/
def get_delay_from_api (nameOf : Int → String) (hour : Int)
    (fetch : Except Unit (List Travel)) : Except ApiError TrainTimes :=
  match fetch with
  | .error _ => .error .generic
  | .ok travels => findMatchingTravel nameOf hour travels

/-- A key of the `timetable_cache`: the argument tuple
(departure_station, arrival_station, day, hour) of `get_timetable`. The
day is in days, the probe hour is the literal string the callers pass. -/
structure CacheKey where
  fromStation : Int
  toStation : Int
  day : Int
  probeHour : String
deriving DecidableEq, Repr

/-- One memoised entry of the TTL cache, tagged with its insertion time
in seconds. -/
structure CacheEntry where
  key : CacheKey
  val : List Travel
  insertedAt : Int
deriving DecidableEq, Repr

/-- The state of `timetable_cache` plus a counter of upstream fetches
actually performed. -/
structure CacheState where
  entries : List CacheEntry
  fetchCount : Nat
deriving DecidableEq, Repr

/-- TTL lookup: an entry answers for its key while less than 10 seconds
old. -/
def cacheLookup (st : CacheState) (now : Int) (k : CacheKey) :
    Option (List Travel) :=
  (st.entries.find? (fun e => decide (e.key = k) && decide (now < e.insertedAt + 10))).map
    (fun e => e.val)

/-- `train_facade.get_timetable` under its `@cached(cache=timetable_cache)`
decorator: a live entry is returned as is, otherwise the upstream
service is fetched and the result memoised at the current time. -/
def get_timetable (upstream : CacheKey → List Travel) (st : CacheState)
    (now : Int) (k : CacheKey) : List Travel × CacheState :=
  match cacheLookup st now k with
  | some v => (v, st)
  | none => (upstream k, ⟨⟨k, upstream k, now⟩ :: st.entries, st.fetchCount + 1⟩)

/-- `get_delay_from_api` with its internal cached `get_timetable` call
made explicit: the day is the date portion of the requested timestamp
and the probe hour is the fixed string of line 153 of the facade. -/
def get_delay_from_api_cached (nameOf : Int → String)
    (upstream : CacheKey → List Travel) (st : CacheState) (now : Int)
    (fromStation toStation : Int) (hour : Int) :
    Except ApiError TrainTimes × CacheState :=
  let k : CacheKey := ⟨fromStation, toStation, hour / 1440, "07:00"⟩
  let res := get_timetable upstream st now k
  (findMatchingTravel nameOf hour res.1, res.2)

/-- One row of the poll query join: the subscription id, the evaluator
inputs, and the notifications_paused column of the owning user, which is
part of the users table but is not in the SELECT list of
`poll_subscriptions`. -/
structure SubRow where
  subscription_id : Nat
  inp : SubInput
  notifications_paused : Bool

/-- `poll_subscriptions` of subscription_poller.py, lines 269-326: each
row is evaluated with the pause argument fixed to `False` and its status
is written back immediately (with a commit per row). `persistOk` models
whether the UPDATE for a given subscription id succeeds; a failing write
raises, and the only handler is the one wrapping the whole pass, so the
remaining rows are not processed. The result is the list of persisted
(id, status) pairs in order and the number of notifications sent. -/
def poll_subscriptions (persistOk : Nat → Bool) :
    List SubRow → List (Nat × Option StatusRecord) × Nat
  | [] => ([], 0)
  | r :: rest =>
    let res := check_subscription r.inp false
    if persistOk r.subscription_id then
      let tail := poll_subscriptions persistOk rest
      ((r.subscription_id, res.1) :: tail.1, res.2.total + tail.2)
    else
      ([], res.2.total)

/-- A baseline evaluator input: today (Sunday, pyWeekday 6) is the
scheduled day, midnight is minute 0, the scheduled departure is minute
720 (12:00) and the clock reads minute 708, so 12 minutes remain. -/
def base_input : SubInput :=
  { todayMidnight := 0
    now := 708
    pyWeekday := 6
    day_of_week := 0
    depTimeOfDay := 720
    last_status_json := none
    notification_before_departure := 10
    notification_delay_threshold := 5
    lookup := .error .generic }

/-- A previous status of a delayed train. -/
def delayed_ten : StatusRecord :=
  { status := "delayed", delay_minutes := 10, updated_departure := none,
    updated_arrival := none, switch_stations := none,
    departure_reminder_sent := none, last_notification_sent_at := none }

/-- A previous on-time status with no reminder flag. -/
def on_time_zero : StatusRecord :=
  { status := "on-time", delay_minutes := 0, updated_departure := none,
    updated_arrival := none, switch_stations := none,
    departure_reminder_sent := none, last_notification_sent_at := none }

/-- A previous on-time status that carries the reminder flag and a
notification timestamp. -/
def last_with_flag : StatusRecord :=
  { status := "on-time", delay_minutes := 0, updated_departure := none,
    updated_arrival := none, switch_stations := none,
    departure_reminder_sent := some true, last_notification_sent_at := some 999 }

/-- A facade result for an on-time train. -/
def on_time_tt : TrainTimes := ⟨720, 780, 0, none⟩

/-- A facade result for a train delayed by 12 minutes. -/
def delayed_twelve_tt : TrainTimes := ⟨720, 780, 12, none⟩

/-- Reduction of `check_subscription` on the path where the day check,
the departure check and the 1-hour window all pass and the facade call
succeeds. -/
theorem check_subscription_success_eq (i : SubInput) (p : Bool) (t : TrainTimes)
    (hday : i.day_eligible = true) (hdep : i.already_departed = false)
    (hwin : i.in_check_window = true) (hlk : i.lookup = .ok t) :
    check_subscription i p =
      (let last_status := i.last_status_json.getD unknown_status
       let cur := success_status t
       let sc : Nat :=
         if status_changed last_status cur i.notification_delay_threshold && !p then 1 else 0
       if i.in_reminder_window && last_status.departure_reminder_sent.isNone && !p then
         (some { cur with departure_reminder_sent := some true }, ⟨sc, 1⟩)
       else if i.in_reminder_window && last_status.departure_reminder_sent.isNone && p then
         (some { cur with departure_reminder_sent := some true }, ⟨sc, 0⟩)
       else
         (some cur, ⟨sc, 0⟩)) := by
  simp only [check_subscription, hday, hdep, hwin, hlk, Bool.not_true,
    Bool.false_eq_true, if_false, if_true]

/-- Reduction of `check_subscription` on the in-window path where the
facade raises `TrainNotFoundError`. -/
theorem check_subscription_notFound_eq (i : SubInput) (p : Bool)
    (hday : i.day_eligible = true) (hdep : i.already_departed = false)
    (hwin : i.in_check_window = true) (hlk : i.lookup = .error .trainNotFound) :
    check_subscription i p = (some not_found_status, ⟨0, 0⟩) := by
  simp only [check_subscription, hday, hdep, hwin, hlk, Bool.not_true,
    Bool.false_eq_true, if_false, if_true]

/-- Reduction of `check_subscription` on the in-window path where the
facade fails with any other exception. -/
theorem check_subscription_generic_eq (i : SubInput) (p : Bool)
    (hday : i.day_eligible = true) (hdep : i.already_departed = false)
    (hwin : i.in_check_window = true) (hlk : i.lookup = .error .generic) :
    check_subscription i p = (some (i.last_status_json.getD unknown_status), ⟨0, 0⟩) := by
  simp only [check_subscription, hday, hdep, hwin, hlk, Bool.not_true,
    Bool.false_eq_true, if_false, if_true]

/-- A subscription evaluated on its scheduled day with the departure 120
minutes away — more than 1 hour — and a delayed previous status. -/
def c1_input : SubInput :=
  { base_input with now := 600, last_status_json := some delayed_ten }

/-- Claim C1: the spec states that for a subscription whose scheduled
day is today or tomorrow and whose departure lies more than 1 hour in
the future, the evaluator returns the unchanged last status record and
zero notifications. The code instead returns the freshly initialised
`{status: unknown, delay_minutes: 0}` record, discarding the previous
delayed status (zero notifications, and determinism of repeated calls,
do hold). This theorem evaluates the evaluator at such an input and
exhibits the overwrite. -/
theorem checkSubscription_outside_window_discards_last_status :
    c1_input.minutes_until_departure = 120 ∧
    check_subscription c1_input false = (some unknown_status, ⟨0, 0⟩) ∧
    some unknown_status ≠ c1_input.last_status_json := by
  decide

/-- An evaluation within the 1-hour window but outside the reminder
window, with a successful on-time lookup and a previous record that
carries both the reminder flag and a notification timestamp. -/
def c2_input : SubInput :=
  { base_input with
      now := 690
      last_status_json := some last_with_flag
      lookup := .ok on_time_tt }

/-- Claim C2: the spec states that a cycle which recomputes the status
without touching the reminder fields carries `departure_reminder_sent`
and `last_notification_sent_at` forward from the previous record. The
code rebuilds `current_status` from scratch on every successful lookup,
so both fields are dropped: with a previous record carrying both, the
persisted record carries neither. -/
theorem checkSubscription_recompute_drops_carry_forward_fields :
    c2_input.in_reminder_window = false ∧
    c2_input.last_status_json = some last_with_flag ∧
    last_with_flag.departure_reminder_sent = some true ∧
    last_with_flag.last_notification_sent_at = some 999 ∧
    check_subscription c2_input false =
      (some { status := "on-time", delay_minutes := 0, updated_departure := some 720,
              updated_arrival := some 780, switch_stations := none,
              departure_reminder_sent := none, last_notification_sent_at := none },
       ⟨0, 0⟩) := by
  decide

/-- First call of the C8 scenario: inside the reminder window, previous
record already carries the reminder flag, on-time lookup. -/
def c8_first : SubInput :=
  { base_input with last_status_json := some last_with_flag, lookup := .ok on_time_tt }

/-- Second call of the C8 scenario: the first call's returned status
record fed back as the last status. -/
def c8_second : SubInput :=
  { c8_first with last_status_json := (check_subscription c8_first false).1 }

/-- Claim C8: the departure reminder is claimed one-shot — for every
input state, feeding the first call's returned record into a second call
within the reminder window must yield zero reminder notifications on the
second call. Starting from a record that already carries the flag, the
first call drops the flag from the record it returns, so the second call
fires a reminder again: the code double-fires. -/
theorem checkSubscription_reminder_refires_after_flag_drop :
    c8_first.in_reminder_window = true ∧
    (check_subscription c8_first false).2.reminder = 0 ∧
    (check_subscription c8_second false).2.reminder = 1 := by
  decide

/-- A paused evaluation inside the reminder window whose previous record
already carries the reminder flag. -/
def c5_input : SubInput :=
  { base_input with
      last_status_json := some last_with_flag
      lookup := .ok delayed_twelve_tt }

/-- Claim C5, counterexample: the claim says that whenever the reminder
window is hit while notifications are paused, the returned record has
`departure_reminder_sent = true`. When the previous record already
carries the flag, the code neither sends nor re-marks, and the rebuilt
record drops the flag, so the returned record does not carry it. -/
theorem checkSubscription_paused_window_flag_not_true :
    c5_input.in_reminder_window = true ∧
    (check_subscription c5_input true).1 ≠ none ∧
    ((check_subscription c5_input true).1.getD unknown_status).departure_reminder_sent ≠
      some true := by
  decide

/-- Claim C7: within the 1-hour window, a facade failure other than
TrainNotFoundError leaves the previous status record unchanged and sends
zero notifications for the cycle. -/
theorem checkSubscription_transient_error_retains_status (i : SubInput) (p : Bool)
    (r : StatusRecord) (hday : i.day_eligible = true) (hdep : i.already_departed = false)
    (hwin : i.in_check_window = true) (hlk : i.lookup = .error .generic)
    (hlast : i.last_status_json = some r) :
    check_subscription i p = (some r, ⟨0, 0⟩) := by
  rw [check_subscription_generic_eq i p hday hdep hwin hlk, hlast]
  rfl

/-- An in-window evaluation whose facade call fails with a generic error
and whose previous status is a delayed record. -/
def c7_input : SubInput :=
  { base_input with last_status_json := some delayed_ten }

/-- Witness for claim C7: a concrete in-window evaluation with a generic
facade failure keeps the delayed previous record and sends nothing. -/
theorem checkSubscription_transient_error_retains_status_witness :
    c7_input.lookup = .error .generic ∧
    check_subscription c7_input false = (some delayed_ten, ⟨0, 0⟩) :=
  ⟨rfl,
   checkSubscription_transient_error_retains_status c7_input false delayed_ten
     (by decide) (by decide) (by decide) rfl (by decide)⟩

/-- Claim C4: within the 1-hour window, with a successful lookup and
notifications not paused, the status-change notification count is 1
exactly when the new status label differs from the previous one or the
absolute delay difference reaches the user threshold, and 0 otherwise. -/
theorem checkSubscription_status_change_iff (i : SubInput) (t : TrainTimes)
    (hday : i.day_eligible = true) (hdep : i.already_departed = false)
    (hwin : i.in_check_window = true) (hlk : i.lookup = .ok t) :
    (check_subscription i false).2.status_change =
      if (i.last_status_json.getD unknown_status).status ≠ status_label t.delay_in_minutes ∨
         i.notification_delay_threshold ≤
           (((i.last_status_json.getD unknown_status).delay_minutes -
              t.delay_in_minutes).natAbs : Int)
      then 1 else 0 := by
  rw [check_subscription_success_eq i false t hday hdep hwin hlk]
  have hb : status_changed (i.last_status_json.getD unknown_status) (success_status t)
      i.notification_delay_threshold = true ↔
      ((i.last_status_json.getD unknown_status).status ≠ status_label t.delay_in_minutes ∨
       i.notification_delay_threshold ≤
         (((i.last_status_json.getD unknown_status).delay_minutes -
            t.delay_in_minutes).natAbs : Int)) := by
    simp [status_changed, success_status, bne_iff_ne]
  simp only [Bool.not_false, Bool.and_true]
  split <;> simp [hb]

/-- The concrete C4 scenario of the spec: previous status on-time with 0
delay, a fresh lookup with a 12-minute delay, threshold 5, reminder
window not hit. -/
def c4_input : SubInput :=
  { base_input with
      now := 690
      last_status_json := some on_time_zero
      lookup := .ok delayed_twelve_tt }

/-- Witness for claim C4: at the concrete scenario exactly one
status-change notification (and no reminder) is produced. -/
theorem checkSubscription_status_change_iff_witness :
    c4_input.day_eligible = true ∧ c4_input.notification_delay_threshold = 5 ∧
    (check_subscription c4_input false).2 = ⟨1, 0⟩ ∧
    (check_subscription c4_input false).2.status_change = 1 := by
  refine ⟨by decide, by decide, by decide, ?_⟩
  have h := checkSubscription_status_change_iff c4_input delayed_twelve_tt
    (by decide) (by decide) (by decide) rfl
  rw [h]
  decide

/-- Claim C5 (amended): with notifications paused the evaluator sends
zero notifications on every input; when additionally the facade lookup
succeeds within the 1-hour window, the returned record reflects the
freshly looked-up delay, and if the reminder window is hit while the
previous record does not already carry `departure_reminder_sent`, the
flag is still set to true in the returned record. -/
theorem checkSubscription_paused_silent_but_updates :
    (∀ i : SubInput, (check_subscription i true).2.total = 0) ∧
    (∀ (i : SubInput) (t : TrainTimes),
      i.day_eligible = true → i.already_departed = false → i.in_check_window = true →
      i.lookup = .ok t →
      ((check_subscription i true).1.getD unknown_status).delay_minutes =
        t.delay_in_minutes ∧
      (i.in_reminder_window = true →
        (i.last_status_json.getD unknown_status).departure_reminder_sent = none →
        ((check_subscription i true).1.getD unknown_status).departure_reminder_sent =
          some true)) := by
  constructor
  · intro i
    unfold check_subscription
    split
    · rfl
    · split
      · rfl
      · split
        · split
          · rfl
          · rfl
          · simp only [Bool.not_true, Bool.and_false, Bool.false_eq_true, if_false,
              Bool.and_true]
            split
            · simp [Notifs.total]
            · simp [Notifs.total]
        · rfl
  · intro i t hday hdep hwin hlk
    rw [check_subscription_success_eq i true t hday hdep hwin hlk]
    simp only [Bool.not_true, Bool.and_false, Bool.false_eq_true, if_false, Bool.and_true]
    by_cases hw : (i.in_reminder_window &&
        (i.last_status_json.getD unknown_status).departure_reminder_sent.isNone) = true
    · rw [if_pos hw]
      refine ⟨by simp [success_status], ?_⟩
      intro _ _
      simp
    · rw [if_neg hw]
      refine ⟨by simp [success_status], ?_⟩
      intro hwdw hnone
      exact absurd (by simp [hwdw, hnone]) hw

/-- Claim C6: the facade scan raises TrainNotFoundError exactly when no
timetable entry has a scheduled departure equal to the requested
timestamp, and within the 1-hour window that outcome makes the evaluator
persist `{status: not_found, delay_minutes: 0}` with zero
notifications. -/
theorem trainNotFound_yields_not_found_record :
    (∀ (nameOf : Int → String) (hour : Int) (travels : List Travel),
      findMatchingTravel nameOf hour travels = .error .trainNotFound ↔
        ∀ tr ∈ travels, tr.departureTime ≠ hour) ∧
    (∀ (i : SubInput) (p : Bool),
      i.day_eligible = true → i.already_departed = false → i.in_check_window = true →
      i.lookup = .error .trainNotFound →
      check_subscription i p = (some not_found_status, ⟨0, 0⟩)) := by
  constructor
  · intro nameOf hour travels
    induction travels with
    | nil => simp [findMatchingTravel]
    | cons travel rest ih =>
      by_cases h : travel.departureTime = hour
      · simp only [findMatchingTravel, if_pos h, List.forall_mem_cons]
        constructor
        · intro hfind
          exfalso
          revert hfind
          cases htr : travel.trains with
          | nil => simp
          | cons t0 ts =>
            cases hp : t0.trainPosition with
            | none => simp [hp]
            | some pos => cases pos <;> simp [hp]
        · intro hall
          exact absurd h hall.1
      · simp only [findMatchingTravel, if_neg h, List.forall_mem_cons]
        rw [ih]
        simp [h]
  · intro i p hday hdep hwin hlk
    exact check_subscription_notFound_eq i p hday hdep hwin hlk

/-- An in-window evaluation whose facade call raised TrainNotFoundError. -/
def c6_input : SubInput :=
  { base_input with lookup := .error .trainNotFound }

/-- A one-travel timetable payload whose departure does not match
minute 720. -/
def c6_travels : List Travel := [⟨700, 800, []⟩]

/-- Witness for claim C6 at a concrete payload and evaluator input. -/
theorem trainNotFound_yields_not_found_record_witness :
    (findMatchingTravel (fun _ => "X") 720 c6_travels = .error .trainNotFound ↔
      ∀ tr ∈ c6_travels, tr.departureTime ≠ 720) ∧
    check_subscription c6_input false = (some not_found_status, ⟨0, 0⟩) :=
  ⟨trainNotFound_yields_not_found_record.1 (fun _ => "X") 720 c6_travels,
   trainNotFound_yields_not_found_record.2 c6_input false (by decide) (by decide)
     (by decide) rfl⟩

/-- Rows for the poll pass scenarios: three subscriptions, each in the
C4 status-change situation, with distinct ids. -/
def row_one : SubRow := ⟨1, c4_input, false⟩

/-- Second poll row. -/
def row_two : SubRow := ⟨2, c4_input, false⟩

/-- Third poll row. -/
def row_three : SubRow := ⟨3, c4_input, false⟩

/-- Claim C3, counterexample: the claim says a persistence failure on
one subscription aborts only that subscription's write and the remaining
subscriptions are still evaluated and persisted. With the write of the
first row failing, the pass persists nothing at all — the second row is
not reached — although with all writes succeeding both rows would have
been persisted. -/
theorem pollSubscriptions_persist_failure_aborts_pass :
    (poll_subscriptions (fun j => decide (j ≠ 1)) [row_one, row_two]).1 = [] ∧
    (poll_subscriptions (fun _ => true) [row_one, row_two]).1.map Prod.fst = [1, 2] := by
  decide

/-- Claim C3 (amended): a failure while persisting one subscription's
status write aborts the remainder of the pass: rows before the failing
one keep their persisted results and notification count, the failing
row's evaluation has already sent its notifications but its write and
every later row are dropped — the result does not depend on the rows
after the failure. Only evaluation errors inside `check_subscription`
are isolated per subscription. -/
theorem pollSubscriptions_abort_after_persist_failure (pk : Nat → Bool)
    (pre : List SubRow) (r : SubRow) (post : List SubRow)
    (hpre : ∀ x ∈ pre, pk x.subscription_id = true)
    (hr : pk r.subscription_id = false) :
    poll_subscriptions pk (pre ++ r :: post) =
      ((poll_subscriptions pk pre).1,
       (poll_subscriptions pk pre).2 + (check_subscription r.inp false).2.total) := by
  induction pre with
  | nil => simp [poll_subscriptions, hr]
  | cons x xs ih =>
    have hx : pk x.subscription_id = true := hpre x (List.mem_cons_self x xs)
    have ihr := ih (fun y hy => hpre y (List.mem_cons_of_mem x hy))
    simp only [List.cons_append, poll_subscriptions, hx, if_true, List.append_eq]
    rw [ihr]
    simp [Nat.add_assoc]

/-- Witness for claim C3 (amended): with the write of row 2 failing, the
pass keeps row 1 and drops everything from row 2 on. -/
theorem pollSubscriptions_abort_after_persist_failure_witness :
    (∀ x ∈ [row_one], (fun j => decide (j ≠ 2)) x.subscription_id = true) ∧
    poll_subscriptions (fun j => decide (j ≠ 2)) ([row_one] ++ row_two :: [row_three]) =
      ((poll_subscriptions (fun j => decide (j ≠ 2)) [row_one]).1,
       (poll_subscriptions (fun j => decide (j ≠ 2)) [row_one]).2 +
         (check_subscription row_two.inp false).2.total) :=
  ⟨by decide,
   pollSubscriptions_abort_after_persist_failure (fun j => decide (j ≠ 2))
     [row_one] row_two [row_three] (by decide) (by decide)⟩

/-- Claim C10: `poll_subscriptions` evaluates every row with the pause
argument fixed to False and its query never reads the users
notifications_paused column, so the stored pause preference cannot
change anything a poll pass does: rewriting the stored column of every
row to true leaves the whole pass result unchanged, and a row whose user
has paused notifications still produces the notification that a paused
evaluation would have suppressed. -/
theorem pollSubscriptions_ignores_stored_pause :
    (∀ (pk : Nat → Bool) (rows : List SubRow),
      poll_subscriptions pk (rows.map fun r => { r with notifications_paused := true }) =
        poll_subscriptions pk rows) ∧
    (poll_subscriptions (fun _ => true) [{ row_one with notifications_paused := true }]).2 = 1 ∧
    (check_subscription row_one.inp true).2.total = 0 := by
  refine ⟨?_, by decide, by decide⟩
  intro pk rows
  induction rows with
  | nil => rfl
  | cons r rest ih =>
    simp only [List.map_cons, poll_subscriptions, ih]

/-- Claim C9: two delay evaluations for the same
(origin, destination, date, probe-hour) key, the second within the
10-second TTL of the first, fetch the upstream timetable service exactly
once: the first call's miss inserts one entry and bumps the fetch count
by one, the second call leaves the cache state untouched and computes
its result from the very payload the first call fetched, so identical
requested timestamps observe identical results. -/
theorem timetable_cache_single_fetch_within_ttl
    (nameOf : Int → String) (upstream : CacheKey → List Travel) (st0 : CacheState)
    (t1 t2 fromStation toStation h1 h2 : Int) (r1 r2 : Except ApiError TrainTimes)
    (st1 st2 : CacheState)
    (hmiss : cacheLookup st0 t1 ⟨fromStation, toStation, h1 / 1440, "07:00"⟩ = none)
    (hday : h1 / 1440 = h2 / 1440) (horder : t1 ≤ t2) (httl : t2 < t1 + 10)
    (hfirst : get_delay_from_api_cached nameOf upstream st0 t1 fromStation toStation h1
      = (r1, st1))
    (hsecond : get_delay_from_api_cached nameOf upstream st1 t2 fromStation toStation h2
      = (r2, st2)) :
    st1.fetchCount = st0.fetchCount + 1 ∧ st2 = st1 ∧
    r2 = findMatchingTravel nameOf h2
      (upstream ⟨fromStation, toStation, h1 / 1440, "07:00"⟩) ∧
    (h1 = h2 → r2 = r1) := by
  have e1 : get_delay_from_api_cached nameOf upstream st0 t1 fromStation toStation h1
      = (findMatchingTravel nameOf h1
           (upstream ⟨fromStation, toStation, h1 / 1440, "07:00"⟩),
         ⟨⟨⟨fromStation, toStation, h1 / 1440, "07:00"⟩,
            upstream ⟨fromStation, toStation, h1 / 1440, "07:00"⟩, t1⟩ :: st0.entries,
          st0.fetchCount + 1⟩) := by
    simp only [get_delay_from_api_cached, get_timetable, hmiss]
  rw [e1] at hfirst
  injection hfirst with hr1 hst1
  subst hr1
  subst hst1
  have hhit : cacheLookup
      ⟨⟨⟨fromStation, toStation, h1 / 1440, "07:00"⟩,
         upstream ⟨fromStation, toStation, h1 / 1440, "07:00"⟩, t1⟩ :: st0.entries,
       st0.fetchCount + 1⟩ t2 ⟨fromStation, toStation, h2 / 1440, "07:00"⟩
      = some (upstream ⟨fromStation, toStation, h1 / 1440, "07:00"⟩) := by
    rw [← hday]
    simp only [cacheLookup]
    rw [List.find?_cons_of_pos]
    · rfl
    · simp [httl]
  have e2 : get_delay_from_api_cached nameOf upstream
      ⟨⟨⟨fromStation, toStation, h1 / 1440, "07:00"⟩,
         upstream ⟨fromStation, toStation, h1 / 1440, "07:00"⟩, t1⟩ :: st0.entries,
       st0.fetchCount + 1⟩ t2 fromStation toStation h2
      = (findMatchingTravel nameOf h2
           (upstream ⟨fromStation, toStation, h1 / 1440, "07:00"⟩),
         ⟨⟨⟨fromStation, toStation, h1 / 1440, "07:00"⟩,
            upstream ⟨fromStation, toStation, h1 / 1440, "07:00"⟩, t1⟩ :: st0.entries,
          st0.fetchCount + 1⟩) := by
    simp only [get_delay_from_api_cached, get_timetable, hhit]
  rw [e2] at hsecond
  injection hsecond with hr2 hst2
  subst hr2
  subst hst2
  refine ⟨rfl, rfl, rfl, ?_⟩
  intro he
  subst he
  rfl

/-- A concrete upstream service for the C9 witness: every key answers
with one travel. -/
def c9_upstream : CacheKey → List Travel := fun _ => [⟨720, 780, []⟩]

/-- Witness for claim C9: starting from an empty cache, two evaluations
of the same route and date five seconds apart perform one fetch and the
second leaves the cache untouched. -/
theorem timetable_cache_single_fetch_within_ttl_witness :
    cacheLookup ⟨[], 0⟩ 0 ⟨1, 2, (720 : Int) / 1440, "07:00"⟩ = none ∧
    (get_delay_from_api_cached (fun _ => "X") c9_upstream ⟨[], 0⟩ 0 1 2 720).2.fetchCount
      = (⟨[], 0⟩ : CacheState).fetchCount + 1 ∧
    (get_delay_from_api_cached (fun _ => "X") c9_upstream
        (get_delay_from_api_cached (fun _ => "X") c9_upstream ⟨[], 0⟩ 0 1 2 720).2
        5 1 2 720).2
      = (get_delay_from_api_cached (fun _ => "X") c9_upstream ⟨[], 0⟩ 0 1 2 720).2 := by
  have h := timetable_cache_single_fetch_within_ttl (fun _ => "X") c9_upstream ⟨[], 0⟩
    0 5 1 2 720 720 _ _ _ _ rfl rfl (by decide) (by decide) rfl rfl
  exact ⟨rfl, h.1, h.2.1⟩

/-- A paused in-window evaluation with no previous status and a
12-minute delay, hitting the reminder window. -/
def c5_ok_input : SubInput :=
  { base_input with lookup := .ok delayed_twelve_tt }

/-- Witness for claim C5 (amended): a concrete paused evaluation sends
nothing, persists the fresh 12-minute delay, and marks the reminder flag
when the window is hit with no flag in the previous record. -/
theorem checkSubscription_paused_silent_but_updates_witness :
    (check_subscription c5_ok_input true).2.total = 0 ∧
    ((check_subscription c5_ok_input true).1.getD unknown_status).delay_minutes = 12 ∧
    ((check_subscription c5_ok_input true).1.getD unknown_status).departure_reminder_sent
      = some true :=
  ⟨checkSubscription_paused_silent_but_updates.1 c5_ok_input,
   (checkSubscription_paused_silent_but_updates.2 c5_ok_input delayed_twelve_tt
      (by decide) (by decide) (by decide) rfl).1,
   (checkSubscription_paused_silent_but_updates.2 c5_ok_input delayed_twelve_tt
      (by decide) (by decide) (by decide) rfl).2 (by decide) (by decide)⟩
